import Mathlib

/-!
Verification of src/devices/vector/gdevpdfk.c (Lab and ICCBased color space
writing for the PDF writer device).

The definitions below are a shallow embedding of the C source: floating-point
colorimetric math is modelled over the exact reals, while the byte-level
profile construction (whose inputs are small decimal constants for which the
C float arithmetic and exact rational arithmetic produce identical encoded
integers) is modelled over the rationals so that it stays executable.
-/

/-- Ghostscript error codes (gserrors.h) returned by the functions of
gdevpdfk.c that the claims address. -/
inductive GsError
  | rangecheck
  | vmerror
  | undefined
  deriving DecidableEq

/-- gs_vector3: a triple of components u, v, w. -/
structure GsVector3 (α : Type) where
  u : α
  v : α
  w : α
  deriving DecidableEq

/-- gs_matrix3: three column vectors cu, cv, cw. -/
structure GsMatrix3 (α : Type) where
  cu : GsVector3 α
  cv : GsVector3 α
  cw : GsVector3 α
  deriving DecidableEq

/-- lab_g_inverse (gdevpdfk.c:131-138): the piecewise cube root used by the
Lab encoder; cube-root branch for arguments at or above (6/29)^3, linear
branch below. -/
noncomputable def lab_g_inverse (v : ℝ) : ℝ :=
  if (6 * 6 * 6 : ℝ) / (29 * 29 * 29) ≤ v then v ^ ((1 : ℝ) / 3)
  else v * (841 / 108) + 4 / 29

/-- The raw lightness of xyz_to_lab (gdevpdfk.c:146) before clamping:
lab_g_inverse(xyz[1] / WhitePoint.v) * 116 - 16. -/
noncomputable def lab_L0 (xyz : GsVector3 ℝ) (wp : GsVector3 ℝ) : ℝ :=
  lab_g_inverse (xyz.v / wp.v) * 116 - 16

/-- The local L of xyz_to_lab (gdevpdfk.c:148-151): the raw lightness
clamped to [0, 100]. -/
noncomputable def lab_L (xyz : GsVector3 ℝ) (wp : GsVector3 ℝ) : ℝ :=
  if lab_L0 xyz wp < 0 then 0
  else if 100 < lab_L0 xyz wp then 100
  else lab_L0 xyz wp

/-- The local lunit of xyz_to_lab (gdevpdfk.c:153): (L + 16) / 116, computed
from the clamped L. -/
noncomputable def lab_lunit (xyz : GsVector3 ℝ) (wp : GsVector3 ℝ) : ℝ :=
  (lab_L xyz wp + 16) / 116

/-- xyz_to_lab (gdevpdfk.c:139-158).  The result components (u, v, w) are
lab[0], lab[1], lab[2] of the C code, i.e. (a, L, b); a and b are built from
lunit, which uses the clamped L. -/
noncomputable def xyz_to_lab (xyz : GsVector3 ℝ) (wp : GsVector3 ℝ) :
    GsVector3 ℝ :=
  ⟨(lab_g_inverse (xyz.u / wp.u) - lab_lunit xyz wp) * 500,
   lab_L xyz wp,
   (lab_g_inverse (xyz.w / wp.w) - lab_lunit xyz wp) * (-200)⟩

/-- Truncation toward zero on exact rationals, modelling the C (int) cast
applied to a double value. -/
def ctrunc (q : ℚ) : ℤ := if 0 ≤ q then ⌊q⌋ else -⌊-q⌋

/-- The C cast of a 32-bit int to unsigned: wrap modulo 2^32. -/
def toUint32 (z : ℤ) : ℕ := (z % (2 ^ 32 : ℤ)).toNat

/-- set_uint32 (gdevpdfk.c:365-372): big-endian byte encoding of a 32-bit
value (each byte reduced modulo 256 by the (byte) cast). -/
def set_uint32 (value : ℕ) : List ℕ :=
  [value / 2 ^ 24 % 256, value / 2 ^ 16 % 256, value / 2 ^ 8 % 256, value % 256]

/-- set_XYZ (gdevpdfk.c:373-377): s15.16 fixed-point encoding,
(uint)(int)(value * 65536), then big-endian bytes. -/
def set_XYZ (value : ℚ) : List ℕ := set_uint32 (toUint32 (ctrunc (value * 65536)))

/-- Big-endian reading of a byte list as an unsigned integer. -/
def beUint (bs : List ℕ) : ℕ := bs.foldl (fun acc b => acc * 256 + b) 0

/-- Decoding of an s15.16 fixed-point value in the nonnegative range. -/
def s15f16_decode (bs : List ℕ) : ℚ := (beUint bs : ℚ) / 65536

/-- profile_table_t (gdevpdfk.c:341-351): tag name, the fixed bytes supplied
up front, the declared directory length, and data_length (the count of fixed
bytes actually written; smaller than length for tags whose remaining payload
is produced by a writer callback). -/
structure ProfileTable where
  tag : String
  data : List ℕ
  length : ℕ
  data_length : ℕ
  deriving DecidableEq

/-- add_table (gdevpdfk.c:352-364). -/
def add_table (tag : String) (data : List ℕ) (length : ℕ) : ProfileTable :=
  { tag := tag, data := data, length := length, data_length := length }

/-- The 20 bytes laid down by add_table_xyz3 (gdevpdfk.c:378-387):
the signature "XYZ " (88 89 90 32), four reserved zero bytes, then the three
encoded components. -/
def xyzTagBytes (pv : GsVector3 ℚ) : List ℕ :=
  [88, 89, 90, 32, 0, 0, 0, 0] ++ set_XYZ pv.u ++ set_XYZ pv.v ++ set_XYZ pv.w

/-- add_table_xyz3 (gdevpdfk.c:378-387). -/
def add_table_xyz3 (tag : String) (pv : GsVector3 ℚ) : ProfileTable :=
  add_table tag (xyzTagBytes pv) 20

/-- gx_cie_cache_size (gxcie.h, not under src/): 1 << 9.  Its numeric value
does not decide any claim below; it only contributes to TRC tag lengths. -/
def gx_cie_cache_size : ℕ := 512

/-- add_trc (gdevpdfk.c:403-417): a curv tag whose fixed part is the 12-byte
header ("curv", 4 reserved zeros, the big-endian sample count) and whose
declared length additionally covers the lazily written 16-bit samples. -/
def add_trc (tag : String) : ProfileTable :=
  let pnt := add_table tag
    ([99, 117, 114, 118, 0, 0, 0, 0] ++ set_uint32 gx_cie_cache_size) 12
  { pnt with length := pnt.length + gx_cie_cache_size * 2 }

/-- NUM_IN_ENTRIES (gdevpdfk.c:474). -/
def NUM_IN_ENTRIES : ℕ := 2

/-- NUM_OUT_ENTRIES (gdevpdfk.c:475). -/
def NUM_OUT_ENTRIES : ℕ := 2

/-- MAX_CLUT_ENTRIES (gdevpdfk.c:476): the fixed CLUT sample budget. -/
def MAX_CLUT_ENTRIES : ℕ := 2500

/-- a2b0_data (gdevpdfk.c:489-501): the 52 fixed bytes of the mft2 tag header
("mft2" signature, reserved zeros, channel counts, an identity matrix in
s15.16, and the input and output table entry counts). -/
def a2b0_data : List ℕ :=
  [109, 102, 116, 50,
   0, 0, 0, 0,
   0,
   3,
   0,
   0,
   0, 1, 0, 0, 0, 0, 0, 0, 0, 0, 0, 0,
   0, 0, 0, 0, 0, 1, 0, 0, 0, 0, 0, 0,
   0, 0, 0, 0, 0, 0, 0, 0, 0, 1, 0, 0,
   0, NUM_IN_ENTRIES,
   0, NUM_OUT_ENTRIES]

/-- Integer k-th root: the largest m with m ^ k ≤ n.  This is the exact value
of (int)floor(pow(n, 1.0/k)) computed at gdevpdfk.c:502 (for the arguments
that occur, n = 2500 and k in 1..4, the floating-point pow is nowhere near an
integer boundary, so the floating computation agrees with the exact root). -/
def kthRootFloor (n k : ℕ) : ℕ :=
  (List.range (n + 1)).foldl (fun acc m => if m ^ k ≤ n then m else acc) 0

/-- num_points as chosen by add_a2b0 (gdevpdfk.c:502-505): the k-th root of
the budget, capped at 255. -/
def a2b0_num_points (ncomps : ℕ) : ℕ := min (kthRootFloor MAX_CLUT_ENTRIES ncomps) 255

/-- The mft2 header after add_a2b0 stores the input channel count in byte 8
and the per-axis CLUT grid size in byte 10 (gdevpdfk.c:506-508). -/
def a2b0_header (ncomps : ℕ) : List ℕ :=
  (a2b0_data.set 8 ncomps).set 10 (a2b0_num_points ncomps)

/-- Total CLUT entry count, num_points ^ ncomps (gdevpdfk.c:511; the C
(int)pow(..) is exact for these small integer arguments). -/
def a2b0_count (ncomps : ℕ) : ℕ := a2b0_num_points ncomps ^ ncomps

/-- add_a2b0 (gdevpdfk.c:485-522): the A2B0 table entry; its declared length
covers the 52-byte header, the input table, the CLUT, and the output table,
while only the 52 fixed bytes are supplied up front (data_length). -/
def add_a2b0 (ncomps : ℕ) : ProfileTable :=
  let pnt := add_table "A2B0" (a2b0_header ncomps)
      (52 + ncomps * 2 * NUM_IN_ENTRIES + a2b0_count ncomps * (3 * 2) +
        3 * 2 * NUM_OUT_ENTRIES)
  { pnt with data_length := 52 }

/-- gs_color_space_index values dispatched on by cie_to_xyz. -/
inductive GsColorSpaceIndex
  | CIEA
  | CIEABC
  | CIEDEF
  | CIEDEFG
  deriving DecidableEq

/-- A CIEBased space as cie_to_xyz consumes it: its variant index and the
XYZ triple that the per-variant concretization gx_psconcretize_* (gsciemap.c,
outside this file's source) produces for a given input, kept opaque here. -/
structure CieSpaceModel where
  index : GsColorSpaceIndex
  concretize : List ℚ → GsVector3 ℚ

/-- The xyz_float value of cie_to_xyz after the switch and the CIEBasedA
override (gdevpdfk.c:91-118): the concretization result, except that for a
single-channel (CIEBasedA) space the first and third components are forced
achromatic, to WhitePoint.u * Y and WhitePoint.w * Y. -/
def cie_to_xyz_concrete (pcs : CieSpaceModel) (wp : GsVector3 ℚ)
    (input : List ℚ) : GsVector3 ℚ :=
  let c := pcs.concretize input
  if pcs.index = GsColorSpaceIndex.CIEA then ⟨wp.u * c.v, c.v, wp.w * c.v⟩
  else c

/-- cie_to_xyz (gdevpdfk.c:64-126): the concretized (possibly forced
achromatic) value, with the white point then mapped to D50 by scaling the
first and third components with 0.9642/wp.u and 0.8249/wp.w
(lines 120-124; the middle component is passed through unscaled). -/
def cie_to_xyz (pcs : CieSpaceModel) (wp : GsVector3 ℚ) (input : List ℚ) :
    GsVector3 ℚ :=
  let c := cie_to_xyz_concrete pcs wp input
  ⟨c.u * (9642 / 10000) / wp.u, c.v, c.w * (8249 / 10000) / wp.w⟩

/-- Modelled from the spec: the multi-channel concretization
(gx_psconcretize_CIEABC and relatives in gsciemap.c, which is not under
src/) applies per-channel decode functions followed by the declared linear
matrix, whose columns are cu, cv, cw. -/
def concretize_multi (decode : Fin 3 → ℚ → ℚ) (mat : GsMatrix3 ℚ)
    (input : List ℚ) : GsVector3 ℚ :=
  let a := decode 0 (input.getD 0 0)
  let b := decode 1 (input.getD 1 0)
  let c := decode 2 (input.getD 2 0)
  ⟨a * mat.cu.u + b * mat.cv.u + c * mat.cw.u,
   a * mat.cu.v + b * mat.cv.v + c * mat.cw.v,
   a * mat.cu.w + b * mat.cv.w + c * mat.cw.w⟩

/-- adjust_wp (gdevpdfk.c:584-591): diagonal white-point adaptation, each
component scaled by the ratio of destination to source white point. -/
def adjust_wp (color_in wp_in wp_out : GsVector3 ℚ) : GsVector3 ℚ :=
  ⟨color_in.u * wp_out.u / wp_in.u,
   color_in.v * wp_out.v / wp_in.v,
   color_in.w * wp_out.w / wp_in.w⟩

/-- white_d50 (gdevpdfk.c:667-670): the forced D50 white point.  The C
constants are the floats 0.9642f, 1.0f, 0.8249f; these exact rationals
produce the same s15.16 encoded integers (63189, 65536, 54060). -/
def white_d50 : GsVector3 ℚ := ⟨9642 / 10000, 1, 8249 / 10000⟩

/-- DESC_LENGTH (gdevpdfk.c:639). -/
def DESC_LENGTH : ℕ := 5

/-- The desc tag bytes (gdevpdfk.c:638-647, 687-690): desc_data ("desc",
reserved zeros, ASCII length, "adhoc\0") followed by zero padding up to
sizeof(desc) = 12 + DESC_LENGTH + 1 + 11 + 67 = 96 bytes. -/
def desc_bytes : List ℕ :=
  [100, 101, 115, 99, 0, 0, 0, 0, 0, 0, 0, DESC_LENGTH + 1,
   97, 100, 104, 111, 99, 0] ++ List.replicate 78 0

/-- cprt_data (gdevpdfk.c:650-655): "text", reserved zeros, "none\0". -/
def cprt_data : List ℕ :=
  [116, 101, 120, 116, 0, 0, 0, 0, 110, 111, 110, 101, 0]

/-- cie_cache_one_step_t (gxcie.h, not under src/): gdevpdfk.c only compares
it against ONE_STEP_ABC and ONE_STEP_LMN. -/
inductive CieCacheOneStep
  | ONE_STEP_ABC
  | ONE_STEP_LMN
  | ONE_STEP_NOT
  deriving DecidableEq

/-- The ordered tag list built by pdf_convert_cie_to_iccbased
(gdevpdfk.c:685-730): desc, wtpt (always the D50 constant), cprt, then
either the three TRC tags plus the three D50-adapted matrix-column XYZ tags
(when one_step is ABC or LMN and a matrix is present), or the single A2B0
lookup-table tag. -/
def build_tables (wp : GsVector3 ℚ) (ncomps : ℕ) (one_step : CieCacheOneStep)
    (pmat : Option (GsMatrix3 ℚ)) : List ProfileTable :=
  [add_table "desc" desc_bytes desc_bytes.length,
   add_table_xyz3 "wtpt" white_d50,
   add_table "cprt" cprt_data cprt_data.length] ++
  (if one_step = CieCacheOneStep.ONE_STEP_ABC ∨
      one_step = CieCacheOneStep.ONE_STEP_LMN then
    match pmat with
    | some m =>
      [add_trc "rTRC", add_trc "gTRC", add_trc "bTRC",
       add_table_xyz3 "rXYZ" (adjust_wp m.cu wp white_d50),
       add_table_xyz3 "gXYZ" (adjust_wp m.cv wp white_d50),
       add_table_xyz3 "bXYZ" (adjust_wp m.cw wp white_d50)]
    | none => [add_a2b0 ncomps]
  else [add_a2b0 ncomps])

/-- Modelled from the spec: round_up (a macro from the build headers, not
under src/) rounds its first argument up to the next multiple of the second,
here always 4: "each tag's contribution to the accumulator is its declared
length rounded up to the next multiple of 4". -/
def round_up4 (x : ℕ) : ℕ := (x + 3) / 4 * 4

/-- The offset-accumulation loop of gdevpdfk.c:742-747: from a running
offset and the declared tag lengths, the per-tag directory offsets and the
final value of the accumulator. -/
def dirLoop (offset : ℕ) : List ℕ → List ℕ × ℕ
  | [] => ([], offset)
  | len :: rest =>
    let r := dirLoop (offset + round_up4 len) rest
    (offset :: r.1, r.2)

/-- table_size (gdevpdfk.c:738): directory size in bytes. -/
def table_size (num_tables : ℕ) : ℕ := 4 + num_tables * 12

/-- The absolute byte offsets assigned to the tags; the accumulator is seeded
with sizeof(header) + table_size (gdevpdfk.c:739). -/
def dirOffsets (lens : List ℕ) : List ℕ :=
  (dirLoop (128 + table_size lens.length) lens).1

/-- The final value of the offset accumulator, written into the header's
size field at gdevpdfk.c:748. -/
def profile_size (lens : List ℕ) : ℕ :=
  (dirLoop (128 + table_size lens.length) lens).2

/-- The first four bytes of a tag name, as memcpy(p, tag, 4) reads them
(all tags in this file are exactly four ASCII characters). -/
def tagBytes4 (s : String) : List ℕ :=
  ((s.data.map Char.toNat) ++ List.replicate 4 0).take 4

/-- The serialized tag directory (gdevpdfk.c:741-747): the big-endian tag
count followed by a 12-byte entry per tag (name, offset, declared length). -/
def dirBytes (tables : List ProfileTable) : List ℕ :=
  set_uint32 tables.length ++
  ((tables.zip (dirOffsets (tables.map ProfileTable.length))).map
    (fun e => tagBytes4 e.1.tag ++ set_uint32 e.2 ++ set_uint32 e.1.length)).flatten

/-- header_data (gdevpdfk.c:619-637): the fixed leading 68 header bytes
(size placeholder, CMM type, version 2.2.0, class "scnr", data color space
placeholder, connection space "XYZ ", date 1/1/2002, "acsp", platform,
flags, manufacturer, model, attributes). -/
def header_data : List ℕ :=
  [0, 0, 0, 0,
   0, 0, 0, 0,
   2, 32, 0, 0,
   115, 99, 110, 114,
   0, 0, 0, 0,
   88, 89, 90, 32,
   7, 210, 0, 1, 0, 1,
   0, 0, 0, 0, 0, 0,
   97, 99, 115, 112,
   0, 0, 0, 0,
   0, 0, 0, 3,
   0, 0, 0, 0, 0, 0, 0, 0,
   0, 0, 0, 0,
   0, 0, 0, 0, 0, 0, 0, 2]

/-- memcpy of src into dst starting at byte off. -/
def overwriteAt (dst : List ℕ) (off : ℕ) (src : List ℕ) : List ℕ :=
  dst.take off ++ src ++ dst.drop (off + src.length)

/-- The 128-byte profile header as pdf_convert_cie_to_iccbased assembles it
(gdevpdfk.c:681-683, 693-694, 748): zeroed, header_data copied to offset 0,
the data color space name to offset 16, bytes 8..19 of the wtpt tag (its
three encoded values) to offset 68 (the illuminant field), and finally the
offset accumulator into the size field at offset 0. -/
def build_header (dcsname : List ℕ) (lens : List ℕ) : List ℕ :=
  overwriteAt
    (overwriteAt
      (overwriteAt (overwriteAt (List.replicate 128 0) 0 header_data) 16 dcsname)
      68 ((xyzTagBytes white_d50).drop 8))
    0 (set_uint32 (profile_size lens))

/-- The observable output of pdf_convert_cie_to_iccbased (gdevpdfk.c:593-768):
the assembled header, the serialized tag directory, and the tag list whose
payloads follow. -/
structure IccSynthOut where
  header : List ℕ
  dir : List ℕ
  tables : List ProfileTable
  deriving DecidableEq

/-- pdf_convert_cie_to_iccbased (gdevpdfk.c:593-768), reduced to the data it
writes; stream plumbing (cos_stream_add_bytes and allocation) is kept
abstract. -/
def pdf_convert_cie_to_iccbased (wp : GsVector3 ℚ) (ncomps : ℕ)
    (dcsname : List ℕ) (one_step : CieCacheOneStep)
    (pmat : Option (GsMatrix3 ℚ)) : IccSynthOut :=
  let tables := build_tables wp ncomps one_step pmat
  { header := build_header dcsname (tables.map ProfileTable.length),
    dir := dirBytes tables,
    tables := tables }

/-- The outcome of the CIE conversion entry point: a Lab space (with its
a and b ranges) or an ICCBased profile. -/
inductive PdfCieOutput
  | lab (ranges : List (ℚ × ℚ))
  | iccbased (profile : IccSynthOut)
  deriving DecidableEq

/-- pdf_convert_cie_to_lab (gdevpdfk.c:217-237): the body begins with
an unconditional early return, `if (1) return_error(gs_error_rangecheck);`
(marked NOT IMPLEMENTED YET), so the Lab synthesis below that line is
unreachable and is not modelled further. -/
def pdf_convert_cie_to_lab (_wp : GsVector3 ℚ) : Except GsError PdfCieOutput :=
  if (1 : ℕ) = 1 then Except.error GsError.rangecheck
  else Except.ok (PdfCieOutput.lab [])

/-- pdf_convert_cie_space (gdevpdfk.c:888-902): dispatch on the compatibility
level.  CompatibilityLevel is declared in gdevpdfx.h (not under src/); per
the spec it is an externally supplied real-valued version floor, modelled
here as an exact rational. -/
def pdf_convert_cie_space (level : ℚ) (wp : GsVector3 ℚ) (ncomps : ℕ)
    (dcsname : List ℕ) (one_step : CieCacheOneStep)
    (pmat : Option (GsMatrix3 ℚ)) : Except GsError PdfCieOutput :=
  if level < 13 / 10 then pdf_convert_cie_to_lab wp
  else Except.ok (PdfCieOutput.iccbased
    (pdf_convert_cie_to_iccbased wp ncomps dcsname one_step pmat))

/-- gsicc_colorbuffer values (gsicc.h): the profile's declared native data
color space, checked by pdf_iccbased_color_space. -/
inductive IccDataCs
  | XYZ
  | Lab
  | RGB
  | GRAY
  | CMYK
  | UNDEFINED
  | NCHANNEL
  | NAMED
  deriving DecidableEq

/-- The fields of cmm_profile_t consumed by pdf_iccbased_color_space; major
and minor_raw are what the external gsicc_getprofilevers reports (minor_raw
carries the declared minor version in its high nibble). -/
structure IccProfileModel where
  data_cs : IccDataCs
  buffer : List ℕ
  major : ℕ
  minor_raw : ℕ
  deriving DecidableEq

/-- The downgrade_icc flag computed at gdevpdfk.c:831-851 for a level at or
above 1.3 (minor is the already shifted declared minor version). -/
def icc_downgrade_needed (level : ℚ) (major minor : ℕ) : Bool :=
  if level < 3 / 2 then decide (2 < major)
  else if level = 3 / 2 then decide (4 < major) || decide (0 < minor)
  else if level = 8 / 5 then decide (4 < major) || decide (1 < minor)
  else decide (4 < major) || decide (2 < minor)

/-- The version gating and byte streaming of pdf_iccbased_color_space
(gdevpdfk.c:823-866), reached once the allow-list check passed: reject
outright below level 1.3; otherwise stream the downgraded v2 buffer produced
by the external CMS when the gate demands it (error undefined when no
graphics state is available), the original profile buffer otherwise. -/
def icc_stream_embedded (level : ℚ) (pgs_present : Bool)
    (profile : IccProfileModel) (v2_buffer : List ℕ) :
    Except GsError (List ℕ) :=
  if level < 13 / 10 then Except.error GsError.rangecheck
  else if icc_downgrade_needed level profile.major (profile.minor_raw / 16) then
    if pgs_present then Except.ok v2_buffer
    else Except.error GsError.undefined
  else Except.ok profile.buffer

/-- pdf_iccbased_color_space (gdevpdfk.c:776-885): the allow-list check on
the profile's declared native space (lines 799-812) followed by the version
gating and streaming (lines 823-866). -/
def pdf_iccbased_color_space (level : ℚ) (pgs_present : Bool)
    (profile : IccProfileModel) (v2_buffer : List ℕ) :
    Except GsError (List ℕ) :=
  match profile.data_cs with
  | IccDataCs.UNDEFINED => Except.error GsError.rangecheck
  | IccDataCs.NCHANNEL => Except.error GsError.rangecheck
  | IccDataCs.NAMED => Except.error GsError.rangecheck
  | _ => icc_stream_embedded level pgs_present profile v2_buffer

/-! Helper lemmas (shared). -/

/-- Cube root of a cube of a nonnegative real. -/
theorem rpow_third_cube (a : ℝ) (ha : 0 ≤ a) :
    ((a ^ (3 : ℕ) : ℝ)) ^ ((1 : ℝ) / 3) = a := by
  rw [← Real.rpow_natCast a 3, ← Real.rpow_mul ha]
  norm_num

/-- The clamping if-chain of xyz_to_lab equals max 0 (min 100 L0). -/
theorem lab_L_eq_clamp (xyz wp : GsVector3 ℝ) :
    lab_L xyz wp = max 0 (min 100 (lab_L0 xyz wp)) := by
  rw [lab_L]
  split_ifs with h1 h2
  · rw [min_eq_right (h1.le.trans (by norm_num)), max_eq_left h1.le]
  · rw [min_eq_left h2.le]
    norm_num
  · rw [min_eq_right (not_lt.1 h2), max_eq_right (not_lt.1 h1)]

/-! Claim theorems. -/

/-- C9: at the breakpoint t = (6/29)^3 the two branches of lab_g_inverse
agree: the cube-root branch (which the code takes, since the test is >=)
yields 6/29, the linear branch t * 841/108 + 4/29 also yields 6/29, exactly
in exact arithmetic, so the function is continuous at the branch point. -/
theorem c9_lab_g_inverse_branch_agreement :
    lab_g_inverse ((6 * 6 * 6 : ℝ) / (29 * 29 * 29)) = 6 / 29 ∧
    ((6 * 6 * 6 : ℝ) / (29 * 29 * 29)) ^ ((1 : ℝ) / 3) = 6 / 29 ∧
    ((6 * 6 * 6 : ℝ) / (29 * 29 * 29)) * (841 / 108) + 4 / 29 = 6 / 29 := by
  have hpow : ((6 * 6 * 6 : ℝ) / (29 * 29 * 29)) = ((6 / 29 : ℝ)) ^ (3 : ℕ) := by
    norm_num
  have hroot : ((6 * 6 * 6 : ℝ) / (29 * 29 * 29)) ^ ((1 : ℝ) / 3) = 6 / 29 := by
    rw [hpow, rpow_third_cube (6 / 29) (by norm_num)]
  refine ⟨?_, hroot, by norm_num⟩
  rw [lab_g_inverse, if_pos le_rfl, hroot]

/-- C5 (amended): xyz_to_lab computes L = clamp(116 f(Y/Yn) - 16) into
[0,100], a = 500 (f(X/Xn) - (L+16)/116) and b = -200 (f(Z/Zn) - (L+16)/116)
where L is the clamped lightness; whenever the raw lightness already lies in
[0,100] these agree with a = 500 (f(X/Xn) - f(Y/Yn)) and
b = -200 (f(Z/Zn) - f(Y/Yn)) (the claim had the arguments of b swapped);
L is clamped for arbitrary inputs and a, b are not clamped (they are exactly
the stated affine expressions). -/
theorem c5_xyz_to_lab_formulas (xyz wp : GsVector3 ℝ) :
    xyz_to_lab xyz wp =
      ⟨500 * (lab_g_inverse (xyz.u / wp.u) -
          (max 0 (min 100 (lab_g_inverse (xyz.v / wp.v) * 116 - 16)) + 16) / 116),
        max 0 (min 100 (lab_g_inverse (xyz.v / wp.v) * 116 - 16)),
        -200 * (lab_g_inverse (xyz.w / wp.w) -
          (max 0 (min 100 (lab_g_inverse (xyz.v / wp.v) * 116 - 16)) + 16) / 116)⟩ ∧
    0 ≤ (xyz_to_lab xyz wp).v ∧ (xyz_to_lab xyz wp).v ≤ 100 ∧
    (0 ≤ lab_g_inverse (xyz.v / wp.v) * 116 - 16 →
      lab_g_inverse (xyz.v / wp.v) * 116 - 16 ≤ 100 →
      (xyz_to_lab xyz wp).u =
        500 * (lab_g_inverse (xyz.u / wp.u) - lab_g_inverse (xyz.v / wp.v)) ∧
      (xyz_to_lab xyz wp).w =
        -200 * (lab_g_inverse (xyz.w / wp.w) - lab_g_inverse (xyz.v / wp.v))) := by
  have hL : lab_L xyz wp = max 0 (min 100 (lab_g_inverse (xyz.v / wp.v) * 116 - 16)) := by
    rw [lab_L_eq_clamp, lab_L0]
  refine ⟨?_, ?_, ?_, ?_⟩
  · rw [xyz_to_lab, lab_lunit, hL, GsVector3.mk.injEq]
    exact ⟨by ring, rfl, by ring⟩
  · rw [xyz_to_lab]
    simp only [hL]
    exact le_max_left 0 _
  · rw [xyz_to_lab]
    simp only [hL]
    exact max_le (by norm_num) (min_le_left 100 _)
  · intro h0 h100
    have hL0 : lab_L xyz wp = lab_g_inverse (xyz.v / wp.v) * 116 - 16 := by
      rw [hL, min_eq_right (by linarith), max_eq_right h0]
    constructor
    · rw [xyz_to_lab]
      simp only [lab_lunit, hL0]
      ring
    · rw [xyz_to_lab]
      simp only [lab_lunit, hL0]
      ring

/-- C5 counterexample, two flaws at concrete inputs.  First, at
XYZ = (0, 8, 0) with white point (1, 1, 1) the raw lightness
116 f(8) - 16 = 216 is clamped to 100 and the code's a component is
500 (f(0) - 1) = -12500/29, not the claimed 500 (f(0/1) - f(8/1)) =
-27000/29: a is not computed from f(Y/Yn) when L is clamped.  Second, at
XYZ = (1, 1, 8) (no clamping, L = 100 exactly) the code's b component is
(f(8) - 1) * (-200) = -200, while the claimed -200 (f(Y/Yn) - f(Z/Zn)) =
-200 (1 - 2) = 200: the claim's b formula has the opposite sign. -/
theorem c5_counterexample :
    (xyz_to_lab ⟨0, 8, 0⟩ ⟨1, 1, 1⟩).u ≠
      500 * (lab_g_inverse ((0 : ℝ) / 1) - lab_g_inverse ((8 : ℝ) / 1)) ∧
    (xyz_to_lab ⟨1, 1, 8⟩ ⟨1, 1, 1⟩).w ≠
      -200 * (lab_g_inverse ((1 : ℝ) / 1) - lab_g_inverse ((8 : ℝ) / 1)) := by
  have hg8 : lab_g_inverse ((8 : ℝ) / 1) = 2 := by
    rw [show ((8 : ℝ) / 1) = ((2 : ℝ) ^ (3 : ℕ)) from by norm_num,
      lab_g_inverse, if_pos (by norm_num), rpow_third_cube 2 (by norm_num)]
  have hg0 : lab_g_inverse ((0 : ℝ) / 1) = 4 / 29 := by
    rw [lab_g_inverse, if_neg (by norm_num)]
    norm_num
  have hg1 : lab_g_inverse ((1 : ℝ) / 1) = 1 := by
    rw [show ((1 : ℝ) / 1) = ((1 : ℝ) ^ (3 : ℕ)) from by norm_num,
      lab_g_inverse, if_pos (by norm_num), rpow_third_cube 1 (by norm_num)]
  constructor
  · have hL : lab_L ⟨0, 8, 0⟩ ⟨1, 1, 1⟩ = 100 := by
      rw [lab_L, lab_L0]
      simp only [hg8]
      rw [if_neg (by norm_num), if_pos (by norm_num)]
    rw [xyz_to_lab]
    simp only [lab_lunit, hL, hg0, hg8]
    norm_num
  · have hL : lab_L ⟨1, 1, 8⟩ ⟨1, 1, 1⟩ = 100 := by
      rw [lab_L, lab_L0]
      simp only [hg1]
      rw [if_neg (by norm_num), if_neg (by norm_num)]
      norm_num
    rw [xyz_to_lab]
    simp only [lab_lunit, hL, hg1, hg8]
    norm_num

/-- C7: the single-channel (CIEBasedA) path of cie_to_xyz forces X to
WhitePoint.u * Y and Z to WhitePoint.w * Y before adaptation, so after the
D50 mapping a CIEBasedA input always yields (0.9642 Y, Y, 0.8249 Y); for
every variant the output stage is the diagonal adaptation by
reference-white/source-white with reference white D50 (the middle component
using that white points are normalized to v = 1); adjust_wp is the same
diagonal scaling; and a multi-channel space concretized per the spec
(per-channel decodes then the declared matrix) passes through the
concretization stage unchanged. -/
theorem c7_cie_to_xyz_paths (conc : List ℚ → GsVector3 ℚ) (wp : GsVector3 ℚ)
    (input : List ℚ) (dec : Fin 3 → ℚ → ℚ) (mat : GsMatrix3 ℚ)
    (idx : GsColorSpaceIndex)
    (hu : wp.u ≠ 0) (hw : wp.w ≠ 0) (hv : wp.v = 1) :
    cie_to_xyz_concrete ⟨GsColorSpaceIndex.CIEA, conc⟩ wp input =
      ⟨wp.u * (conc input).v, (conc input).v, wp.w * (conc input).v⟩ ∧
    cie_to_xyz ⟨GsColorSpaceIndex.CIEA, conc⟩ wp input =
      ⟨9642 / 10000 * (conc input).v, (conc input).v,
       8249 / 10000 * (conc input).v⟩ ∧
    (idx ≠ GsColorSpaceIndex.CIEA →
      cie_to_xyz ⟨idx, conc⟩ wp input =
        ⟨(conc input).u * (white_d50.u / wp.u),
         (conc input).v * (white_d50.v / wp.v),
         (conc input).w * (white_d50.w / wp.w)⟩) ∧
    (∀ cin wout : GsVector3 ℚ,
      adjust_wp cin wp wout =
        ⟨cin.u * (wout.u / wp.u), cin.v * (wout.v / wp.v),
         cin.w * (wout.w / wp.w)⟩) ∧
    (idx ≠ GsColorSpaceIndex.CIEA →
      cie_to_xyz_concrete ⟨idx, concretize_multi dec mat⟩ wp input =
        concretize_multi dec mat input) := by
  refine ⟨?_, ?_, ?_, ?_, ?_⟩
  · rw [cie_to_xyz_concrete]
    simp
  · rw [cie_to_xyz, cie_to_xyz_concrete]
    simp only [if_pos rfl]
    rw [GsVector3.mk.injEq]
    refine ⟨?_, rfl, ?_⟩
    · field_simp
      ring
    · field_simp
      ring
  · intro hne
    rw [cie_to_xyz, cie_to_xyz_concrete]
    simp only [if_neg hne]
    rw [white_d50, GsVector3.mk.injEq]
    refine ⟨by rw [mul_div_assoc], ?_, by rw [mul_div_assoc]⟩
    rw [hv]
    norm_num
  · intro cin wout
    rw [adjust_wp, GsVector3.mk.injEq]
    exact ⟨by rw [mul_div_assoc], by rw [mul_div_assoc], by rw [mul_div_assoc]⟩
  · intro hne
    rw [cie_to_xyz_concrete]
    simp only [if_neg hne]

/-- C7 witness: concrete instantiation at white point (2, 1, 4), a constant
concretization returning (1, 2, 3), identity decodes and identity matrix. -/
theorem c7_cie_to_xyz_paths_witness :
    cie_to_xyz_concrete ⟨GsColorSpaceIndex.CIEA, fun _ => ⟨1, 2, 3⟩⟩ ⟨2, 1, 4⟩ [1] =
      ⟨(2 : ℚ) * 2, 2, 4 * 2⟩ ∧
    cie_to_xyz ⟨GsColorSpaceIndex.CIEA, fun _ => ⟨1, 2, 3⟩⟩ ⟨2, 1, 4⟩ [1] =
      ⟨9642 / 10000 * 2, 2, 8249 / 10000 * 2⟩ ∧
    (GsColorSpaceIndex.CIEABC ≠ GsColorSpaceIndex.CIEA →
      cie_to_xyz ⟨GsColorSpaceIndex.CIEABC, fun _ => ⟨1, 2, 3⟩⟩ ⟨2, 1, 4⟩ [1] =
        ⟨(1 : ℚ) * (white_d50.u / 2), 2 * (white_d50.v / 1),
         3 * (white_d50.w / 4)⟩) ∧
    (∀ cin wout : GsVector3 ℚ,
      adjust_wp cin ⟨2, 1, 4⟩ wout =
        ⟨cin.u * (wout.u / 2), cin.v * (wout.v / 1), cin.w * (wout.w / 4)⟩) ∧
    (GsColorSpaceIndex.CIEABC ≠ GsColorSpaceIndex.CIEA →
      cie_to_xyz_concrete
          ⟨GsColorSpaceIndex.CIEABC, concretize_multi (fun _ q => q) ⟨⟨1, 0, 0⟩, ⟨0, 1, 0⟩, ⟨0, 0, 1⟩⟩⟩
          ⟨2, 1, 4⟩ [1] =
        concretize_multi (fun _ q => q) ⟨⟨1, 0, 0⟩, ⟨0, 1, 0⟩, ⟨0, 0, 1⟩⟩ [1]) :=
  c7_cie_to_xyz_paths (fun _ => ⟨1, 2, 3⟩) ⟨2, 1, 4⟩ [1] (fun _ q => q)
    ⟨⟨1, 0, 0⟩, ⟨0, 1, 0⟩, ⟨0, 0, 1⟩⟩ GsColorSpaceIndex.CIEABC
    (by norm_num) (by norm_num) rfl

/-- C10: pdf_convert_cie_to_lab returns a range-check error unconditionally
(its body opens with if (1) return_error(gs_error_rangecheck), so the Lab
synthesis below is dead code), and consequently pdf_convert_cie_space fails
with a range-check error for every compatibility level below 1.3. -/
theorem c10_lab_unreachable (level : ℚ) (wp : GsVector3 ℚ) (ncomps : ℕ)
    (dcsname : List ℕ) (one_step : CieCacheOneStep)
    (pmat : Option (GsMatrix3 ℚ)) (h : level < 13 / 10) :
    pdf_convert_cie_to_lab wp = Except.error GsError.rangecheck ∧
    pdf_convert_cie_space level wp ncomps dcsname one_step pmat =
      Except.error GsError.rangecheck := by
  constructor
  · rfl
  · rw [pdf_convert_cie_space, if_pos h]
    rfl

/-- C10 witness: concrete evaluation at compatibility level 1.2. -/
theorem c10_lab_unreachable_witness :
    pdf_convert_cie_to_lab ⟨1, 1, 1⟩ = Except.error GsError.rangecheck ∧
    pdf_convert_cie_space (12 / 10) ⟨1, 1, 1⟩ 3 [82, 71, 66, 32]
        CieCacheOneStep.ONE_STEP_NOT none = Except.error GsError.rangecheck :=
  c10_lab_unreachable (12 / 10) ⟨1, 1, 1⟩ 3 [82, 71, 66, 32]
    CieCacheOneStep.ONE_STEP_NOT none (by norm_num)

/-- C1 counterexample: at compatibility level 1.2 (below 1.3) and a concrete
CIE space, pdf_convert_cie_space does not emit a Lab space; it returns a
range-check error (the Lab writer is unimplemented), so the claim that a
floor below 1.3 emits a Lab color space is false. -/
theorem c1_counterexample :
    pdf_convert_cie_space (12 / 10) ⟨1, 1, 1⟩ 3 [82, 71, 66, 32]
        CieCacheOneStep.ONE_STEP_ABC none = Except.error GsError.rangecheck ∧
    ∀ ranges, pdf_convert_cie_space (12 / 10) ⟨1, 1, 1⟩ 3 [82, 71, 66, 32]
        CieCacheOneStep.ONE_STEP_ABC none ≠
      Except.ok (PdfCieOutput.lab ranges) := by
  have h : pdf_convert_cie_space (12 / 10) ⟨1, 1, 1⟩ 3 [82, 71, 66, 32]
      CieCacheOneStep.ONE_STEP_ABC none = Except.error GsError.rangecheck := by
    rw [pdf_convert_cie_space, if_pos (by norm_num)]
    rfl
  exact ⟨h, fun ranges hcontra => by rw [h] at hcontra; exact Except.noConfusion hcontra⟩

/-- C1 (amended): for every compatibility level below 1.3,
pdf_convert_cie_space calls pdf_convert_cie_to_lab, which fails with a
range-check error before emitting anything (no Lab space and no tag-table
profile are produced); for every level at or above 1.3 it proceeds to ICC
profile synthesis via pdf_convert_cie_to_iccbased. -/
theorem c1_policy_dispatch (level : ℚ) (wp : GsVector3 ℚ) (ncomps : ℕ)
    (dcsname : List ℕ) (one_step : CieCacheOneStep)
    (pmat : Option (GsMatrix3 ℚ)) :
    (level < 13 / 10 →
      pdf_convert_cie_space level wp ncomps dcsname one_step pmat =
        Except.error GsError.rangecheck) ∧
    (13 / 10 ≤ level →
      pdf_convert_cie_space level wp ncomps dcsname one_step pmat =
        Except.ok (PdfCieOutput.iccbased
          (pdf_convert_cie_to_iccbased wp ncomps dcsname one_step pmat))) := by
  constructor
  · intro h
    rw [pdf_convert_cie_space, if_pos h]
    rfl
  · intro h
    rw [pdf_convert_cie_space, if_neg (not_lt.2 h)]

/-- C1 witness: concrete dispatch at levels 1.2 and 1.3. -/
theorem c1_policy_dispatch_witness :
    pdf_convert_cie_space (12 / 10) ⟨1, 1, 1⟩ 3 [82, 71, 66, 32]
        CieCacheOneStep.ONE_STEP_LMN none = Except.error GsError.rangecheck ∧
    pdf_convert_cie_space (13 / 10) ⟨1, 1, 1⟩ 3 [82, 71, 66, 32]
        CieCacheOneStep.ONE_STEP_LMN none =
      Except.ok (PdfCieOutput.iccbased
        (pdf_convert_cie_to_iccbased ⟨1, 1, 1⟩ 3 [82, 71, 66, 32]
          CieCacheOneStep.ONE_STEP_LMN none)) :=
  ⟨(c1_policy_dispatch (12 / 10) ⟨1, 1, 1⟩ 3 [82, 71, 66, 32]
      CieCacheOneStep.ONE_STEP_LMN none).1 (by norm_num),
   (c1_policy_dispatch (13 / 10) ⟨1, 1, 1⟩ 3 [82, 71, 66, 32]
      CieCacheOneStep.ONE_STEP_LMN none).2 (by norm_num)⟩

/-- For a profile whose native space passes the allow-list, the embedder is
the version-gating stage (shared helper). -/
theorem pdf_iccbased_allowed (level : ℚ) (pgs : Bool) (pr : IccProfileModel)
    (v2 : List ℕ) (h1 : pr.data_cs ≠ IccDataCs.UNDEFINED)
    (h2 : pr.data_cs ≠ IccDataCs.NCHANNEL)
    (h3 : pr.data_cs ≠ IccDataCs.NAMED) :
    pdf_iccbased_color_space level pgs pr v2 =
      icc_stream_embedded level pgs pr v2 := by
  obtain ⟨cs, buf, maj, minr⟩ := pr
  cases cs
  case XYZ => rfl
  case Lab => rfl
  case RGB => rfl
  case GRAY => rfl
  case CMYK => rfl
  case UNDEFINED => exact absurd rfl h1
  case NCHANNEL => exact absurd rfl h2
  case NAMED => exact absurd rfl h3

/-- C3: version gating of the pass-through embedder, for every profile on
the native-space allow-list, with a graphics state available: a level below
1.3 rejects with a range-check error; in [1.3, 1.5) the original bytes are
streamed iff major <= 2; at 1.5 iff major <= 4 and declared minor <= 0; at
1.6 iff major <= 4 and minor <= 1; at or above 1.7 iff major <= 4 and
minor <= 2; whenever the ceiling is exceeded the downgraded v2 buffer is
streamed instead (declared minor = minor_raw >> 4). -/
theorem c3_version_gating (level : ℚ) (pr : IccProfileModel) (v2 : List ℕ)
    (h1 : pr.data_cs ≠ IccDataCs.UNDEFINED)
    (h2 : pr.data_cs ≠ IccDataCs.NCHANNEL)
    (h3 : pr.data_cs ≠ IccDataCs.NAMED) :
    (level < 13 / 10 →
      pdf_iccbased_color_space level true pr v2 =
        Except.error GsError.rangecheck) ∧
    (13 / 10 ≤ level → level < 3 / 2 →
      (pr.major ≤ 2 →
        pdf_iccbased_color_space level true pr v2 = Except.ok pr.buffer) ∧
      (2 < pr.major →
        pdf_iccbased_color_space level true pr v2 = Except.ok v2)) ∧
    (level = 3 / 2 →
      (pr.major ≤ 4 → pr.minor_raw / 16 = 0 →
        pdf_iccbased_color_space level true pr v2 = Except.ok pr.buffer) ∧
      (4 < pr.major ∨ 0 < pr.minor_raw / 16 →
        pdf_iccbased_color_space level true pr v2 = Except.ok v2)) ∧
    (level = 8 / 5 →
      (pr.major ≤ 4 → pr.minor_raw / 16 ≤ 1 →
        pdf_iccbased_color_space level true pr v2 = Except.ok pr.buffer) ∧
      (4 < pr.major ∨ 1 < pr.minor_raw / 16 →
        pdf_iccbased_color_space level true pr v2 = Except.ok v2)) ∧
    (17 / 10 ≤ level →
      (pr.major ≤ 4 → pr.minor_raw / 16 ≤ 2 →
        pdf_iccbased_color_space level true pr v2 = Except.ok pr.buffer) ∧
      (4 < pr.major ∨ 2 < pr.minor_raw / 16 →
        pdf_iccbased_color_space level true pr v2 = Except.ok v2)) := by
  rw [pdf_iccbased_allowed level true pr v2 h1 h2 h3]
  refine ⟨?_, ?_, ?_, ?_, ?_⟩
  · intro h
    rw [icc_stream_embedded, if_pos h]
  · intro h13 h15
    have hd : icc_downgrade_needed level pr.major (pr.minor_raw / 16) =
        decide (2 < pr.major) := by
      rw [icc_downgrade_needed, if_pos h15]
    constructor
    · intro hmaj
      rw [icc_stream_embedded, if_neg (not_lt.2 h13), hd]
      rw [if_neg (by simpa using not_lt.2 hmaj)]
    · intro hmaj
      rw [icc_stream_embedded, if_neg (not_lt.2 h13), hd]
      rw [if_pos (by simpa using hmaj)]
      rfl
  · intro hl
    have h13 : ¬(level < 13 / 10) := by rw [hl]; norm_num
    have hd : icc_downgrade_needed level pr.major (pr.minor_raw / 16) =
        (decide (4 < pr.major) || decide (0 < pr.minor_raw / 16)) := by
      rw [icc_downgrade_needed, if_neg (by rw [hl]; norm_num), if_pos hl]
    constructor
    · intro hmaj hmin
      rw [icc_stream_embedded, if_neg h13, hd]
      rw [if_neg (by simp [not_lt.2 hmaj, hmin])]
    · intro hor
      rw [icc_stream_embedded, if_neg h13, hd]
      rw [if_pos (by rcases hor with h | h <;> simp [h])]
      rfl
  · intro hl
    have h13 : ¬(level < 13 / 10) := by rw [hl]; norm_num
    have hd : icc_downgrade_needed level pr.major (pr.minor_raw / 16) =
        (decide (4 < pr.major) || decide (1 < pr.minor_raw / 16)) := by
      rw [icc_downgrade_needed, if_neg (by rw [hl]; norm_num),
        if_neg (by rw [hl]; norm_num), if_pos hl]
    constructor
    · intro hmaj hmin
      rw [icc_stream_embedded, if_neg h13, hd]
      rw [if_neg (by simp [not_lt.2 hmaj, not_lt.2 hmin])]
    · intro hor
      rw [icc_stream_embedded, if_neg h13, hd]
      rw [if_pos (by rcases hor with h | h <;> simp [h])]
      rfl
  · intro hl
    have h13 : ¬(level < 13 / 10) := by
      push_neg
      linarith
    have hd : icc_downgrade_needed level pr.major (pr.minor_raw / 16) =
        (decide (4 < pr.major) || decide (2 < pr.minor_raw / 16)) := by
      rw [icc_downgrade_needed, if_neg (by push_neg; linarith),
        if_neg (by intro h; rw [h] at hl; linarith),
        if_neg (by intro h; rw [h] at hl; linarith)]
    constructor
    · intro hmaj hmin
      rw [icc_stream_embedded, if_neg h13, hd]
      rw [if_neg (by simp [not_lt.2 hmaj, not_lt.2 hmin])]
    · intro hor
      rw [icc_stream_embedded, if_neg h13, hd]
      rw [if_pos (by rcases hor with h | h <;> simp [h])]
      rfl

/-- C3 witness: a profile declaring major = 4, minor = 2 (minor_raw = 0x24,
whose high nibble is 2) is streamed unmodified at level 1.7 but the
downgraded buffer is streamed at level 1.5; and level 1.2 rejects. -/
theorem c3_version_gating_witness :
    pdf_iccbased_color_space (12 / 10) true ⟨IccDataCs.RGB, [7], 4, 36⟩ [9] =
      Except.error GsError.rangecheck ∧
    pdf_iccbased_color_space (17 / 10) true ⟨IccDataCs.RGB, [7], 4, 36⟩ [9] =
      Except.ok [7] ∧
    pdf_iccbased_color_space (3 / 2) true ⟨IccDataCs.RGB, [7], 4, 36⟩ [9] =
      Except.ok [9] :=
  ⟨(c3_version_gating (12 / 10) ⟨IccDataCs.RGB, [7], 4, 36⟩ [9]
      (by simp) (by simp) (by simp)).1 (by norm_num),
   ((c3_version_gating (17 / 10) ⟨IccDataCs.RGB, [7], 4, 36⟩ [9]
      (by simp) (by simp) (by simp)).2.2.2.2 (by norm_num)).1
      (by norm_num) (by norm_num),
   ((c3_version_gating (3 / 2) ⟨IccDataCs.RGB, [7], 4, 36⟩ [9]
      (by simp) (by simp) (by simp)).2.2.1 rfl).2 (Or.inr (by norm_num))⟩

/-- C8: the pass-through embedder streams bytes only for profiles whose
declared native data color space is XYZ, Lab, RGB, Gray or CMYK; for
UNDEFINED, NCHANNEL or NAMED native spaces it returns a range-check error
and embeds nothing. -/
theorem c8_native_space_allowlist (level : ℚ) (pgs : Bool)
    (pr : IccProfileModel) (v2 : List ℕ) :
    (pr.data_cs = IccDataCs.UNDEFINED ∨ pr.data_cs = IccDataCs.NCHANNEL ∨
        pr.data_cs = IccDataCs.NAMED →
      pdf_iccbased_color_space level pgs pr v2 =
        Except.error GsError.rangecheck) ∧
    (∀ bytes, pdf_iccbased_color_space level pgs pr v2 = Except.ok bytes →
      pr.data_cs = IccDataCs.XYZ ∨ pr.data_cs = IccDataCs.Lab ∨
      pr.data_cs = IccDataCs.RGB ∨ pr.data_cs = IccDataCs.GRAY ∨
      pr.data_cs = IccDataCs.CMYK) := by
  obtain ⟨cs, buf, maj, minr⟩ := pr
  cases cs
  case UNDEFINED => exact ⟨fun _ => rfl, fun bytes h => Except.noConfusion h⟩
  case NCHANNEL => exact ⟨fun _ => rfl, fun bytes h => Except.noConfusion h⟩
  case NAMED => exact ⟨fun _ => rfl, fun bytes h => Except.noConfusion h⟩
  case XYZ =>
    refine ⟨fun h => ?_, fun bytes _ => Or.inl rfl⟩
    rcases h with h | h | h <;> exact IccDataCs.noConfusion h
  case Lab =>
    refine ⟨fun h => ?_, fun bytes _ => Or.inr (Or.inl rfl)⟩
    rcases h with h | h | h <;> exact IccDataCs.noConfusion h
  case RGB =>
    refine ⟨fun h => ?_, fun bytes _ => Or.inr (Or.inr (Or.inl rfl))⟩
    rcases h with h | h | h <;> exact IccDataCs.noConfusion h
  case GRAY =>
    refine ⟨fun h => ?_, fun bytes _ => Or.inr (Or.inr (Or.inr (Or.inl rfl)))⟩
    rcases h with h | h | h <;> exact IccDataCs.noConfusion h
  case CMYK =>
    refine ⟨fun h => ?_, fun bytes _ => Or.inr (Or.inr (Or.inr (Or.inr rfl)))⟩
    rcases h with h | h | h <;> exact IccDataCs.noConfusion h

/-- C8 witness: an NCHANNEL profile is rejected with a range-check error at
a concrete level. -/
theorem c8_native_space_allowlist_witness :
    pdf_iccbased_color_space (17 / 10) true ⟨IccDataCs.NCHANNEL, [7], 2, 0⟩ [9] =
      Except.error GsError.rangecheck :=
  (c8_native_space_allowlist (17 / 10) true ⟨IccDataCs.NCHANNEL, [7], 2, 0⟩ [9]).1
    (Or.inr (Or.inl rfl))

/-- The s15.16 encoding of the D50 X component 0.9642 is 63189 = 0x0000F6D5
(shared helper). -/
theorem set_XYZ_d50_u : set_XYZ (9642 / 10000) = [0, 0, 246, 213] := by
  rw [set_XYZ]
  have h : ctrunc (9642 / 10000 * 65536) = 63189 := by
    rw [ctrunc, if_pos (by norm_num)]
    norm_num
  rw [h]
  rfl

/-- The s15.16 encoding of 1.0 is 65536 = 0x00010000 (shared helper). -/
theorem set_XYZ_d50_v : set_XYZ 1 = [0, 1, 0, 0] := by
  rw [set_XYZ]
  have h : ctrunc (1 * 65536) = 65536 := by
    rw [ctrunc, if_pos (by norm_num)]
    norm_num
  rw [h]
  rfl

/-- The s15.16 encoding of the D50 Z component 0.8249 is 54060 = 0x0000D32C
(shared helper). -/
theorem set_XYZ_d50_w : set_XYZ (8249 / 10000) = [0, 0, 211, 44] := by
  rw [set_XYZ]
  have h : ctrunc (8249 / 10000 * 65536) = 54060 := by
    rw [ctrunc, if_pos (by norm_num)]
    norm_num
  rw [h]
  rfl

/-- The complete wtpt tag contents (shared helper). -/
theorem wtpt_tag_bytes : (add_table_xyz3 "wtpt" white_d50).data =
    [88, 89, 90, 32, 0, 0, 0, 0, 0, 0, 246, 213, 0, 1, 0, 0, 0, 0, 211, 44] := by
  show xyzTagBytes white_d50 = _
  rw [xyzTagBytes]
  show _ ++ set_XYZ (9642 / 10000) ++ set_XYZ 1 ++ set_XYZ (8249 / 10000) = _
  rw [set_XYZ_d50_u, set_XYZ_d50_v, set_XYZ_d50_w]
  rfl

/-- C2 (amended): for every source white point (and channel count, data
color space name, and path choice), the wtpt tag emitted by
pdf_convert_cie_to_iccbased is built from the D50 constants, not from the
source white point: it is always table number 1 and its three encoded values
are the s15.16 truncations of (0.9642, 1.0, 0.8249), namely
63189/65536 (within 1/65536 below 0.9642), exactly 1, and 54060/65536
(within 1/65536 below 0.8249); and the 12 bytes of the header's illuminant
field at offset 68 are byte-identical to the tag's three encoded values. -/
theorem c2_wtpt_forced_d50 (wp : GsVector3 ℚ) (ncomps : ℕ)
    (one_step : CieCacheOneStep) (pmat : Option (GsMatrix3 ℚ))
    (d0 d1 d2 d3 : ℕ) :
    (pdf_convert_cie_to_iccbased wp ncomps [d0, d1, d2, d3] one_step
        pmat).tables.get? 1 = some (add_table_xyz3 "wtpt" white_d50) ∧
    (add_table_xyz3 "wtpt" white_d50).data =
      [88, 89, 90, 32, 0, 0, 0, 0, 0, 0, 246, 213, 0, 1, 0, 0, 0, 0, 211, 44] ∧
    (((pdf_convert_cie_to_iccbased wp ncomps [d0, d1, d2, d3] one_step
        pmat).header.drop 68).take 12) =
      (add_table_xyz3 "wtpt" white_d50).data.drop 8 ∧
    s15f16_decode (((add_table_xyz3 "wtpt" white_d50).data.drop 8).take 4) =
      63189 / 65536 ∧
    s15f16_decode (((add_table_xyz3 "wtpt" white_d50).data.drop 12).take 4) = 1 ∧
    s15f16_decode ((add_table_xyz3 "wtpt" white_d50).data.drop 16) =
      54060 / 65536 ∧
    9642 / 10000 - 1 / 65536 < (63189 : ℚ) / 65536 ∧
    (63189 : ℚ) / 65536 ≤ 9642 / 10000 ∧
    8249 / 10000 - 1 / 65536 < (54060 : ℚ) / 65536 ∧
    (54060 : ℚ) / 65536 ≤ 8249 / 10000 := by
  refine ⟨?_, wtpt_tag_bytes, ?_, ?_, ?_, ?_, by norm_num, by norm_num,
    by norm_num, by norm_num⟩
  · rcases one_step with _ | _ | _ <;> rcases pmat with _ | m <;> rfl
  · rcases one_step with _ | _ | _ <;> rcases pmat with _ | m <;> rfl
  · rw [wtpt_tag_bytes]
    have hb : beUint [0, 0, 246, 213] = 63189 := rfl
    rw [show (([(88:ℕ), 89, 90, 32, 0, 0, 0, 0, 0, 0, 246, 213, 0, 1, 0, 0,
      0, 0, 211, 44].drop 8).take 4) = [0, 0, 246, 213] from rfl,
      s15f16_decode, hb]
    norm_num
  · rw [wtpt_tag_bytes]
    have hb : beUint [0, 1, 0, 0] = 65536 := rfl
    rw [show (([(88:ℕ), 89, 90, 32, 0, 0, 0, 0, 0, 0, 246, 213, 0, 1, 0, 0,
      0, 0, 211, 44].drop 12).take 4) = [0, 1, 0, 0] from rfl,
      s15f16_decode, hb]
    norm_num
  · rw [wtpt_tag_bytes]
    have hb : beUint [0, 0, 211, 44] = 54060 := rfl
    rw [show ([(88:ℕ), 89, 90, 32, 0, 0, 0, 0, 0, 0, 246, 213, 0, 1, 0, 0,
      0, 0, 211, 44].drop 16) = [0, 0, 211, 44] from rfl,
      s15f16_decode, hb]
    norm_num

/-- C2 counterexample: for the concrete source white point
(0.9505, 1, 1.089) from the spec's end-to-end test, the emitted wtpt tag's
X value decodes to 63189/65536, which is not exactly 0.9642: the s15.16
truncation loses one unit in the last place, so "decodes to exactly
(0.9642, 1.0, 0.8249)" is false as stated. -/
theorem c2_counterexample :
    s15f16_decode ((((pdf_convert_cie_to_iccbased
        ⟨9505 / 10000, 1, 10890 / 10000⟩ 1 [71, 82, 65, 89]
        CieCacheOneStep.ONE_STEP_NOT none).tables.getD 1
        (add_table "" [] 0)).data.drop 8).take 4) = 63189 / 65536 ∧
    s15f16_decode ((((pdf_convert_cie_to_iccbased
        ⟨9505 / 10000, 1, 10890 / 10000⟩ 1 [71, 82, 65, 89]
        CieCacheOneStep.ONE_STEP_NOT none).tables.getD 1
        (add_table "" [] 0)).data.drop 8).take 4) ≠ 9642 / 10000 := by
  have hslice : (((pdf_convert_cie_to_iccbased
      ⟨9505 / 10000, 1, 10890 / 10000⟩ 1 [71, 82, 65, 89]
      CieCacheOneStep.ONE_STEP_NOT none).tables.getD 1
      (add_table "" [] 0)).data.drop 8).take 4 = set_XYZ (9642 / 10000) := rfl
  rw [hslice, set_XYZ_d50_u]
  have hb : beUint [0, 0, 246, 213] = 63189 := rfl
  rw [s15f16_decode, hb]
  constructor
  · norm_num
  · norm_num

/-- The offset list has one entry per tag (shared helper). -/
theorem dirLoop_fst_length (lens : List ℕ) : ∀ off : ℕ,
    ((dirLoop off lens).1).length = lens.length := by
  induction lens with
  | nil => intro off; rfl
  | cons a l ih =>
    intro off
    simp only [dirLoop, List.length_cons]
    rw [ih]

/-- Closed form of the final offset accumulator (shared helper). -/
theorem dirLoop_snd_eq (lens : List ℕ) : ∀ off : ℕ,
    (dirLoop off lens).2 = off + (lens.map round_up4).sum := by
  induction lens with
  | nil => intro off; simp [dirLoop]
  | cons a l ih =>
    intro off
    simp only [dirLoop, List.map_cons, List.sum_cons]
    rw [ih]
    omega

/-- Closed form of each assigned offset (shared helper). -/
theorem dirLoop_fst_get (lens : List ℕ) : ∀ off i : ℕ, i < lens.length →
    (dirLoop off lens).1.get? i =
      some (off + ((lens.take i).map round_up4).sum) := by
  induction lens with
  | nil => intro off i h; exact absurd h (by simp)
  | cons a l ih =>
    intro off i h
    cases i with
    | zero => simp [dirLoop]
    | succ j =>
      have hj : j < l.length := by simpa using h
      simp only [dirLoop, List.get?_cons_succ, List.take_succ_cons,
        List.map_cons, List.sum_cons]
      rw [ih (off + round_up4 a) j hj]
      congr 1
      omega

/-- The final accumulator is the last offset plus the last padded length
(shared helper). -/
theorem dirLoop_snd_last (lens : List ℕ) (h : lens ≠ []) : ∀ off : ℕ,
    (dirLoop off lens).2 =
      (dirLoop off lens).1.getD (lens.length - 1) 0 +
        round_up4 (lens.getD (lens.length - 1) 0) := by
  induction lens with
  | nil => exact absurd rfl h
  | cons a l ih =>
    intro off
    cases l with
    | nil => simp [dirLoop]
    | cons b m =>
      have hne : b :: m ≠ [] := by simp
      simp only [dirLoop, List.length_cons, Nat.add_sub_cancel]
      rw [List.getD_cons_succ, List.getD_cons_succ]
      have := ih hne (off + round_up4 a)
      simp only [List.length_cons, Nat.add_sub_cancel] at this
      exact this

/-- Each serialized directory entry is 12 bytes long (shared helper). -/
theorem dirEntry_length (e : ProfileTable × ℕ) :
    (tagBytes4 e.1.tag ++ set_uint32 e.2 ++ set_uint32 e.1.length).length = 12 := by
  rw [List.length_append, List.length_append]
  have h1 : (tagBytes4 e.1.tag).length = 4 := by
    rw [tagBytes4, List.length_take, List.length_append, List.length_replicate]
    omega
  have h2 : (set_uint32 e.2).length = 4 := rfl
  have h3 : (set_uint32 e.1.length).length = 4 := rfl
  omega

/-- C4: directory layout of the profile builder.  For every sequence of
declared tag lengths, tag i receives the absolute offset
128 + (4 + 12 N) + the sum of the 4-byte-rounded lengths of the earlier
tags; the serialized directory occupies exactly 4 + 12 N bytes; the final
accumulator (the profile size) is 128 + (4 + 12 N) plus the sum of all
rounded lengths, which equals the last tag's offset plus its rounded
length; and the header's size field holds exactly that value. -/
theorem c4_directory_layout (lens : List ℕ) (tables : List ProfileTable)
    (dcsname : List ℕ) (i : ℕ) (hi : i < lens.length) (hne : lens ≠ []) :
    (dirOffsets lens).get? i =
      some (128 + (4 + 12 * lens.length) + ((lens.take i).map round_up4).sum) ∧
    (dirBytes tables).length = 4 + 12 * tables.length ∧
    profile_size lens = 128 + (4 + 12 * lens.length) + (lens.map round_up4).sum ∧
    profile_size lens =
      (dirOffsets lens).getD (lens.length - 1) 0 +
        round_up4 (lens.getD (lens.length - 1) 0) ∧
    (build_header dcsname lens).take 4 = set_uint32 (profile_size lens) := by
  have hbase : 128 + table_size lens.length = 128 + (4 + 12 * lens.length) := by
    rw [table_size]
    ring
  refine ⟨?_, ?_, ?_, ?_, rfl⟩
  · rw [dirOffsets, dirLoop_fst_get lens (128 + table_size lens.length) i hi, hbase]
  · rw [dirBytes, List.length_append]
    have h4 : (set_uint32 tables.length).length = 4 := rfl
    rw [h4, List.length_flatten, List.map_map]
    have hrep : ((tables.zip (dirOffsets (tables.map ProfileTable.length))).map
        (List.length ∘ fun e =>
          tagBytes4 e.1.tag ++ set_uint32 e.2 ++ set_uint32 e.1.length)) =
        List.replicate ((tables.zip (dirOffsets
          (tables.map ProfileTable.length))).map
          (List.length ∘ fun e =>
            tagBytes4 e.1.tag ++ set_uint32 e.2 ++ set_uint32 e.1.length)).length
          12 := by
      apply List.eq_replicate_of_mem
      intro b hb
      obtain ⟨e, _, rfl⟩ := List.mem_map.1 hb
      exact dirEntry_length e
    rw [hrep, List.sum_replicate, smul_eq_mul, List.length_map, List.length_zip,
      dirOffsets, dirLoop_fst_length, List.length_map, min_self]
    omega
  · rw [profile_size, dirLoop_snd_eq lens, hbase]
  · rw [profile_size, dirOffsets, dirLoop_snd_last lens hne]

/-- C4 witness: three tags of lengths 96, 20 and 13 (as emitted for a
one-channel space before the A2B0 tag), inspecting tag number 1. -/
theorem c4_directory_layout_witness :
    (dirOffsets [96, 20, 13]).get? 1 =
      some (128 + (4 + 12 * [96, 20, 13].length) +
        (([96, 20, 13].take 1).map round_up4).sum) ∧
    (dirBytes [add_a2b0 4]).length = 4 + 12 * [add_a2b0 4].length ∧
    profile_size [96, 20, 13] =
      128 + (4 + 12 * [96, 20, 13].length) + ([96, 20, 13].map round_up4).sum ∧
    profile_size [96, 20, 13] =
      (dirOffsets [96, 20, 13]).getD ([96, 20, 13].length - 1) 0 +
        round_up4 ([96, 20, 13].getD ([96, 20, 13].length - 1) 0) ∧
    (build_header [71, 82, 65, 89] [96, 20, 13]).take 4 =
      set_uint32 (profile_size [96, 20, 13]) :=
  c4_directory_layout [96, 20, 13] [add_a2b0 4] [71, 82, 65, 89] 1
    (by norm_num) (by simp)

/-- nth root of an nth power of a nonnegative real (shared helper). -/
theorem rpow_pow_inv (a : ℝ) (ha : 0 ≤ a) (n : ℕ) (hn : n ≠ 0) :
    ((a ^ n : ℝ)) ^ ((1 : ℝ) / (n : ℝ)) = a := by
  rw [← Real.rpow_natCast a n, ← Real.rpow_mul ha]
  rw [mul_one_div, div_self (by exact_mod_cast hn)]
  exact Real.rpow_one a

/-- Floor of the real cube root of 2500 (shared helper). -/
theorem floor_rpow_2500_3 : ⌊(2500 : ℝ) ^ ((1 : ℝ) / ((3 : ℕ) : ℝ))⌋₊ = 13 := by
  have hle : (13 : ℝ) ≤ (2500 : ℝ) ^ ((1 : ℝ) / ((3 : ℕ) : ℝ)) := by
    have h13 : ((13 : ℝ) ^ (3 : ℕ)) ^ ((1 : ℝ) / ((3 : ℕ) : ℝ)) = 13 :=
      rpow_pow_inv 13 (by norm_num) 3 (by norm_num)
    rw [← h13]
    exact Real.rpow_le_rpow (by positivity) (by norm_num) (by norm_num)
  have hlt : (2500 : ℝ) ^ ((1 : ℝ) / ((3 : ℕ) : ℝ)) < 14 := by
    have h14 : ((14 : ℝ) ^ (3 : ℕ)) ^ ((1 : ℝ) / ((3 : ℕ) : ℝ)) = 14 :=
      rpow_pow_inv 14 (by norm_num) 3 (by norm_num)
    rw [← h14]
    exact Real.rpow_lt_rpow (by norm_num) (by norm_num) (by norm_num)
  rw [Nat.floor_eq_iff (by positivity)]
  constructor
  · exact_mod_cast hle
  · push_cast
    linarith

/-- Floor of the real fourth root of 2500 (shared helper). -/
theorem floor_rpow_2500_4 : ⌊(2500 : ℝ) ^ ((1 : ℝ) / ((4 : ℕ) : ℝ))⌋₊ = 7 := by
  have hle : (7 : ℝ) ≤ (2500 : ℝ) ^ ((1 : ℝ) / ((4 : ℕ) : ℝ)) := by
    have h7 : ((7 : ℝ) ^ (4 : ℕ)) ^ ((1 : ℝ) / ((4 : ℕ) : ℝ)) = 7 :=
      rpow_pow_inv 7 (by norm_num) 4 (by norm_num)
    rw [← h7]
    exact Real.rpow_le_rpow (by positivity) (by norm_num) (by norm_num)
  have hlt : (2500 : ℝ) ^ ((1 : ℝ) / ((4 : ℕ) : ℝ)) < 8 := by
    have h8 : ((8 : ℝ) ^ (4 : ℕ)) ^ ((1 : ℝ) / ((4 : ℕ) : ℝ)) = 8 :=
      rpow_pow_inv 8 (by norm_num) 4 (by norm_num)
    rw [← h8]
    exact Real.rpow_lt_rpow (by norm_num) (by norm_num) (by norm_num)
  rw [Nat.floor_eq_iff (by positivity)]
  constructor
  · exact_mod_cast hle
  · push_cast
    linarith

/-- Floor of 2500 to the power 1/1 (shared helper). -/
theorem floor_rpow_2500_1 : ⌊(2500 : ℝ) ^ ((1 : ℝ) / ((1 : ℕ) : ℝ))⌋₊ = 2500 := by
  have h : ((1 : ℝ) / ((1 : ℕ) : ℝ)) = 1 := by norm_num
  rw [h, Real.rpow_one]
  exact_mod_cast Nat.floor_natCast 2500

set_option maxRecDepth 100000

/-- C6: for each channel count k in {1, 3, 4}, the A2B0 writer picks the
per-axis sample count s = min(floor(2500^(1/k)), 255) (concretely 255, 13, 7),
so s never exceeds 255 and the total CLUT entry count s^k never exceeds the
budget of 2500; s is stored in byte 10 of the mft2 header (the CLUT grid
size) and s^k entries are generated. -/
theorem c6_clut_budget (k : ℕ) (hk : k = 1 ∨ k = 3 ∨ k = 4) :
    a2b0_num_points k ≤ 255 ∧
    a2b0_num_points k ^ k ≤ MAX_CLUT_ENTRIES ∧
    a2b0_num_points k = min (⌊(MAX_CLUT_ENTRIES : ℝ) ^ ((1 : ℝ) / (k : ℝ))⌋₊) 255 ∧
    (a2b0_header k).get? 10 = some (a2b0_num_points k) ∧
    a2b0_count k = a2b0_num_points k ^ k := by
  have h2500 : ((MAX_CLUT_ENTRIES : ℕ) : ℝ) = (2500 : ℝ) := by
    rw [MAX_CLUT_ENTRIES]
    norm_num
  rcases hk with rfl | rfl | rfl
  · refine ⟨by decide, by decide, ?_, by decide, rfl⟩
    rw [h2500, floor_rpow_2500_1]
    decide
  · refine ⟨by decide, by decide, ?_, by decide, rfl⟩
    rw [h2500, floor_rpow_2500_3]
    decide
  · refine ⟨by decide, by decide, ?_, by decide, rfl⟩
    rw [h2500, floor_rpow_2500_4]
    decide

/-- C6 witness: the three-channel case, s = 13, 13^3 = 2197 <= 2500. -/
theorem c6_clut_budget_witness :
    a2b0_num_points 3 ≤ 255 ∧
    a2b0_num_points 3 ^ 3 ≤ MAX_CLUT_ENTRIES ∧
    a2b0_num_points 3 =
      min (⌊(MAX_CLUT_ENTRIES : ℝ) ^ ((1 : ℝ) / ((3 : ℕ) : ℝ))⌋₊) 255 ∧
    (a2b0_header 3).get? 10 = some (a2b0_num_points 3) ∧
    a2b0_count 3 = a2b0_num_points 3 ^ 3 :=
  c6_clut_budget 3 (Or.inr (Or.inl rfl))

/-- C2 witness: concrete instantiation at the spec's test white point
(0.9505, 1, 1.089), three channels, data color space name "RGB ". -/
theorem c2_wtpt_forced_d50_witness :
    (pdf_convert_cie_to_iccbased ⟨9505 / 10000, 1, 10890 / 10000⟩ 3
        [82, 71, 66, 32] CieCacheOneStep.ONE_STEP_ABC none).tables.get? 1 =
      some (add_table_xyz3 "wtpt" white_d50) ∧
    (add_table_xyz3 "wtpt" white_d50).data =
      [88, 89, 90, 32, 0, 0, 0, 0, 0, 0, 246, 213, 0, 1, 0, 0, 0, 0, 211, 44] ∧
    (((pdf_convert_cie_to_iccbased ⟨9505 / 10000, 1, 10890 / 10000⟩ 3
        [82, 71, 66, 32] CieCacheOneStep.ONE_STEP_ABC none).header.drop 68).take 12) =
      (add_table_xyz3 "wtpt" white_d50).data.drop 8 ∧
    s15f16_decode (((add_table_xyz3 "wtpt" white_d50).data.drop 8).take 4) =
      63189 / 65536 ∧
    s15f16_decode (((add_table_xyz3 "wtpt" white_d50).data.drop 12).take 4) = 1 ∧
    s15f16_decode ((add_table_xyz3 "wtpt" white_d50).data.drop 16) =
      54060 / 65536 ∧
    9642 / 10000 - 1 / 65536 < (63189 : ℚ) / 65536 ∧
    (63189 : ℚ) / 65536 ≤ 9642 / 10000 ∧
    8249 / 10000 - 1 / 65536 < (54060 : ℚ) / 65536 ∧
    (54060 : ℚ) / 65536 ≤ 8249 / 10000 :=
  c2_wtpt_forced_d50 ⟨9505 / 10000, 1, 10890 / 10000⟩ 3
    CieCacheOneStep.ONE_STEP_ABC none 82 71 66 32

/-- C5 witness: concrete instantiation at XYZ = (1, 1, 1) with white point
(1, 1, 1), where the raw lightness is exactly 100 and no clamping occurs. -/
theorem c5_xyz_to_lab_formulas_witness :
    xyz_to_lab ⟨1, 1, 1⟩ ⟨1, 1, 1⟩ =
      ⟨500 * (lab_g_inverse ((1 : ℝ) / 1) -
          (max 0 (min 100 (lab_g_inverse ((1 : ℝ) / 1) * 116 - 16)) + 16) / 116),
        max 0 (min 100 (lab_g_inverse ((1 : ℝ) / 1) * 116 - 16)),
        -200 * (lab_g_inverse ((1 : ℝ) / 1) -
          (max 0 (min 100 (lab_g_inverse ((1 : ℝ) / 1) * 116 - 16)) + 16) / 116)⟩ ∧
    0 ≤ (xyz_to_lab ⟨1, 1, 1⟩ ⟨1, 1, 1⟩).v ∧
    (xyz_to_lab ⟨1, 1, 1⟩ ⟨1, 1, 1⟩).v ≤ 100 ∧
    (0 ≤ lab_g_inverse ((1 : ℝ) / 1) * 116 - 16 →
      lab_g_inverse ((1 : ℝ) / 1) * 116 - 16 ≤ 100 →
      (xyz_to_lab ⟨1, 1, 1⟩ ⟨1, 1, 1⟩).u =
        500 * (lab_g_inverse ((1 : ℝ) / 1) - lab_g_inverse ((1 : ℝ) / 1)) ∧
      (xyz_to_lab ⟨1, 1, 1⟩ ⟨1, 1, 1⟩).w =
        -200 * (lab_g_inverse ((1 : ℝ) / 1) - lab_g_inverse ((1 : ℝ) / 1))) :=
  c5_xyz_to_lab_formulas ⟨1, 1, 1⟩ ⟨1, 1, 1⟩
